import Mathlib

/-
  Verification development for the passive-logic-simulator repository.

  The Python sources are shallowly embedded in Lean:
  - real-valued arithmetic on validated parameters is modelled over the
    rationals (exact arithmetic in place of IEEE doubles), except for the
    synthetic-weather curves, which use Real.cos as the source uses math.cos;
  - the construction-time validation layer of params.py is modelled over a
    dedicated PyFloat type so that NaN and infinities can be expressed;
  - Python functions that raise are embedded as functions into Except String.
-/

namespace PassiveLogic

/-! ## numerics.py -/

/-- Embeds rk4_step from numerics.py: classic 4th-order Runge-Kutta step. -/
def rk4_step (t_s y dt_s : ℚ) (f : ℚ → ℚ → ℚ) : ℚ :=
  let k1 := f t_s y
  let k2 := f (t_s + dt_s / 2) (y + dt_s * k1 / 2)
  let k3 := f (t_s + dt_s / 2) (y + dt_s * k2 / 2)
  let k4 := f (t_s + dt_s) (y + dt_s * k3)
  y + (dt_s / 6) * (k1 + 2 * k2 + 2 * k3 + k4)

/-- Embeds euler_step from numerics.py: forward Euler step. -/
def euler_step (t_s y dt_s : ℚ) (f : ℚ → ℚ → ℚ) : ℚ :=
  y + dt_s * f t_s y

/-! ## params.py - validated parameter values, embedded over ℚ

These structures carry the already-validated field values used by the physics,
control and simulation modules. The validation layer itself (which must speak
about NaN and infinities) is embedded separately below in namespace Params. -/

structure CollectorParams where
  area_m2 : ℚ
  heat_removal_factor : ℚ
  optical_efficiency : ℚ
  loss_coefficient_w_m2k : ℚ
deriving DecidableEq

structure TankParams where
  mass_kg : ℚ
  cp_j_kgk : ℚ
  ua_w_k : ℚ
  initial_temperature_k : ℚ
  room_temperature_k : ℚ
deriving DecidableEq

structure PumpParams where
  mass_flow_kg_s : ℚ
deriving DecidableEq

structure ControlParams where
  enabled : Bool
  delta_t_on_k : ℚ
  delta_t_off_k : ℚ
  min_irradiance_w_m2 : ℚ
deriving DecidableEq

structure SimulationParams where
  t0_s : ℚ
  dt_s : ℚ
  duration_s : ℚ
deriving DecidableEq

/-! ## physics.py -/

/-- Embeds clamp_min from physics.py. -/
def clamp_min (value minimum : ℚ) : ℚ :=
  if value ≥ minimum then value else minimum

/-- Embeds collector_useful_heat_w from physics.py
(Hottel-Whillier balance, clamped at zero). -/
def collector_useful_heat_w (t_in_k t_amb_outdoor_k irradiance_w_m2 : ℚ)
    (collector : CollectorParams) : ℚ :=
  let q_u := collector.area_m2 * collector.heat_removal_factor *
    (collector.optical_efficiency * irradiance_w_m2
      - collector.loss_coefficient_w_m2k * (t_in_k - t_amb_outdoor_k))
  clamp_min q_u 0

/-- Embeds collector_outlet_k from physics.py. -/
def collector_outlet_k (t_in_k q_u_w m_dot_kg_s cp_j_kgk : ℚ) : ℚ :=
  if m_dot_kg_s ≤ 0 then t_in_k
  else t_in_k + q_u_w / (m_dot_kg_s * cp_j_kgk)

/-- Embeds tank_dTdt_k_s from physics.py (well-mixed tank energy balance). -/
def tank_dTdt_k_s (t_tank_k t_out_k t_room_k m_dot_kg_s : ℚ)
    (tank : TankParams) : ℚ :=
  (m_dot_kg_s / tank.mass_kg) * (t_out_k - t_tank_k)
    - (tank.ua_w_k / (tank.mass_kg * tank.cp_j_kgk)) * (t_tank_k - t_room_k)

/-! ## control.py -/

/-- Embeds update_pump_state from control.py (hysteresis controller). -/
def update_pump_state (pump_on : Bool) (t_tank_k t_amb_outdoor_k irradiance_w_m2 : ℚ)
    (collector : CollectorParams) (pump : PumpParams) (tank : TankParams)
    (control : ControlParams) : Bool :=
  if !control.enabled then true
  else if irradiance_w_m2 < control.min_irradiance_w_m2 then false
  else
    let q_u_nom_w := collector_useful_heat_w t_tank_k t_amb_outdoor_k irradiance_w_m2 collector
    let t_out_nom_k := collector_outlet_k t_tank_k q_u_nom_w pump.mass_flow_kg_s tank.cp_j_kgk
    if pump_on then decide (t_out_nom_k > t_tank_k + control.delta_t_off_k)
    else decide (t_out_nom_k > t_tank_k + control.delta_t_on_k)

/-! ## time_series.py -/

inductive ExtrapolationMode where
  | clamp
  | zero
  | error
deriving DecidableEq

/-- Embeds the TimeSeries dataclass from time_series.py (fields only;
the __post_init__ validation is the predicate TimeSeries.valid below). -/
structure TimeSeries where
  times_s : List ℚ
  values : List ℚ
deriving DecidableEq

/-- The invariant established by TimeSeries.__post_init__: equal lengths,
at least two points, strictly increasing times. -/
def TimeSeries.valid (ts : TimeSeries) : Prop :=
  ts.times_s.length = ts.values.length ∧
  2 ≤ ts.times_s.length ∧
  List.Chain' (· < ·) ts.times_s

instance (ts : TimeSeries) : Decidable ts.valid :=
  inferInstanceAs (Decidable (_ ∧ _ ∧ _))

/-- Embeds the while loop inside TimeSeries.value_at (binary search for the
bracketing pair lo, hi with hi - lo = 1). -/
def bracketSearch (times : List ℚ) (t_s : ℚ) (lo hi : ℕ) : ℕ × ℕ :=
  if h : 1 < hi - lo then
    if times.getD ((lo + hi) / 2) 0 ≤ t_s then bracketSearch times t_s ((lo + hi) / 2) hi
    else bracketSearch times t_s lo ((lo + hi) / 2)
  else (lo, hi)
termination_by hi - lo
decreasing_by
  · omega
  · omega

/-- Embeds TimeSeries.value_at from time_series.py. Out-of-range list reads
use a default of 0; on valid series and the branches exercised here they
never occur. A raised ValueError is embedded as Except.error. -/
def TimeSeries.value_at (ts : TimeSeries) (t_s : ℚ)
    (extrapolation : ExtrapolationMode) : Except String ℚ :=
  if t_s ≤ ts.times_s.headD 0 then
    match extrapolation with
    | .clamp => .ok (ts.values.headD 0)
    | .zero => .ok 0
    | .error => .error ("t_s=" ++ toString t_s ++ " is before start of series")
  else if ts.times_s.getLastD 0 ≤ t_s then
    match extrapolation with
    | .clamp => .ok (ts.values.getLastD 0)
    | .zero => .ok 0
    | .error => .error ("t_s=" ++ toString t_s ++ " is after end of series")
  else
    let p := bracketSearch ts.times_s t_s 0 (ts.times_s.length - 1)
    let t0 := ts.times_s.getD p.1 0
    let t1 := ts.times_s.getD p.2 0
    let v0 := ts.values.getD p.1 0
    let v1 := ts.values.getD p.2 0
    if t1 = t0 then .ok v0
    else .ok (v0 + (t_s - t0) / (t1 - t0) * (v1 - v0))

/-! ## weather.py - synthetic curves (over ℝ, using Real.cos as the source
uses math.cos) and the sampler interface consumed by the simulation loop. -/

/-- Embeds irradiance_clear_day_w_m2 from weather.py. -/
noncomputable def irradiance_clear_day_w_m2 (t_s sunrise_s sunset_s peak_w_m2 : ℝ) : ℝ :=
  if t_s < sunrise_s ∨ t_s > sunset_s then 0
  else
    let x := (t_s - sunrise_s) / (sunset_s - sunrise_s)
    peak_w_m2 * (1 - Real.cos (Real.pi * x)) / 2

/-- Embeds ambient_sinusoid_k from weather.py. Note: the source signature is
(t_s, mean_k, amplitude_k, period_s) with no peak-phase parameter. -/
noncomputable def ambient_sinusoid_k (t_s mean_k amplitude_k period_s : ℝ) : ℝ :=
  mean_k + amplitude_k * Real.cos (2 * Real.pi * t_s / period_s)

/-- The Weather protocol of weather.py: the two samplers consumed by
run_simulation. build_weather (synthetic construction and CSV input) is the
out-of-scope adapter that produces such a value; the simulation engine is
embedded as consuming the already-built sampler, over ℚ. -/
structure Weather where
  irradiance_w_m2 : ℚ → ℚ
  ambient_temperature_k : ℚ → ℚ

/-! ## config.py / simulation.py -/

/-- The parameter bundle of SimulationConfig from config.py (the weather
member is passed to run_simulation as the built sampler, see Weather). -/
structure SimulationConfig where
  collector : CollectorParams
  tank : TankParams
  pump : PumpParams
  control : ControlParams
  sim : SimulationParams
deriving DecidableEq

/-- Embeds the SimulationResult dataclass from simulation.py. -/
structure SimulationResult where
  times_s : List ℚ
  tank_temperature_k : List ℚ
  ambient_temperature_k : List ℚ
  irradiance_w_m2 : List ℚ
  pump_on : List Bool
deriving DecidableEq

/-- Embeds the rhs closure defined inside run_simulation (simulation.py):
pump state fixed for the step, weather resampled at sub-stage times. -/
def simRhs (config : SimulationConfig) (weather : Weather) (m_dot_kg_s : ℚ)
    (local_t_s local_t_tank_k : ℚ) : ℚ :=
  let local_g := weather.irradiance_w_m2 local_t_s
  let local_t_amb_k := weather.ambient_temperature_k local_t_s
  let q_u_w := collector_useful_heat_w local_t_tank_k local_t_amb_k local_g config.collector
  let t_out_k := collector_outlet_k local_t_tank_k q_u_w m_dot_kg_s config.tank.cp_j_kgk
  tank_dTdt_k_s local_t_tank_k t_out_k config.tank.room_temperature_k m_dot_kg_s config.tank

/-- Embeds the body of the for loop in run_simulation. The argument counts
the remaining iterations after the current one: remaining = 0 is the final
iteration (step == n_steps), which records its sample and breaks. -/
def simLoop (config : SimulationConfig) (weather : Weather) :
    ℕ → ℚ → ℚ → Bool → SimulationResult
  | 0, t_s, t_tank_k, pump_on =>
    let g := weather.irradiance_w_m2 t_s
    let t_amb_k := weather.ambient_temperature_k t_s
    let pump_next := update_pump_state pump_on t_tank_k t_amb_k g
      config.collector config.pump config.tank config.control
    ⟨[t_s], [t_tank_k], [t_amb_k], [g], [pump_next]⟩
  | remaining + 1, t_s, t_tank_k, pump_on =>
    let g := weather.irradiance_w_m2 t_s
    let t_amb_k := weather.ambient_temperature_k t_s
    let pump_next := update_pump_state pump_on t_tank_k t_amb_k g
      config.collector config.pump config.tank config.control
    let m_dot_kg_s := if pump_next then config.pump.mass_flow_kg_s else 0
    let t_tank_next := rk4_step t_s t_tank_k config.sim.dt_s (simRhs config weather m_dot_kg_s)
    let rest := simLoop config weather remaining (t_s + config.sim.dt_s) t_tank_next pump_next
    ⟨t_s :: rest.times_s, t_tank_k :: rest.tank_temperature_k,
      t_amb_k :: rest.ambient_temperature_k, g :: rest.irradiance_w_m2,
      pump_next :: rest.pump_on⟩

/-- Embeds run_simulation from simulation.py. n_steps mirrors
int(duration_s // dt_s): floor division, with no divisibility check. -/
def run_simulation (config : SimulationConfig) (weather : Weather) : SimulationResult :=
  let n_steps := (⌊config.sim.duration_s / config.sim.dt_s⌋).toNat
  simLoop config weather n_steps config.sim.t0_s config.tank.initial_temperature_k false

/-! ## params.py - construction-time validation layer

Python floats are modelled by PyFloat so that NaN and infinities exist;
comparisons follow IEEE-754 ordering as Python implements it. Each
dataclass constructor together with its __post_init__ is embedded as a mk
function returning Except String (a raised ValueError is Except.error). -/

namespace Params

inductive PyFloat where
  | finite (q : ℚ)
  | nan
  | inf
  | neginf
deriving DecidableEq

/-- Stand-in for the Python repr of a float, used in error messages. -/
def PyFloat.reprStr : PyFloat → String
  | .finite q => toString q
  | .nan => "nan"
  | .inf => "inf"
  | .neginf => "-inf"

/-- Embeds math.isfinite. -/
def PyFloat.isFinite : PyFloat → Bool
  | .finite _ => true
  | _ => false

/-- IEEE-754 ordering: a <= b (false whenever either side is NaN). -/
def PyFloat.leB : PyFloat → PyFloat → Bool
  | .nan, _ => false
  | _, .nan => false
  | .neginf, _ => true
  | _, .neginf => false
  | _, .inf => true
  | .inf, _ => false
  | .finite a, .finite b => decide (a ≤ b)

/-- IEEE-754 ordering: a < b (false whenever either side is NaN). -/
def PyFloat.ltB : PyFloat → PyFloat → Bool
  | .nan, _ => false
  | _, .nan => false
  | .neginf, .neginf => false
  | .neginf, _ => true
  | _, .neginf => false
  | .inf, _ => false
  | _, .inf => true
  | .finite a, .finite b => decide (a < b)

/-- Embeds _require_finite from params.py. -/
def require_finite (name : String) (value : PyFloat) : Except String Unit :=
  if value.isFinite then .ok ()
  else .error (name ++ " must be finite, got " ++ value.reprStr)

/-- Embeds _require_positive from params.py. -/
def require_positive (name : String) (value : PyFloat) : Except String Unit :=
  match require_finite name value with
  | .error e => .error e
  | .ok _ =>
    if value.leB (.finite 0) then .error (name ++ " must be > 0, got " ++ value.reprStr)
    else .ok ()

/-- Embeds _require_non_negative from params.py. -/
def require_non_negative (name : String) (value : PyFloat) : Except String Unit :=
  match require_finite name value with
  | .error e => .error e
  | .ok _ =>
    if value.ltB (.finite 0) then .error (name ++ " must be >= 0, got " ++ value.reprStr)
    else .ok ()

/-- Embeds _require_unit_interval from params.py. -/
def require_unit_interval (name : String) (value : PyFloat) : Except String Unit :=
  match require_finite name value with
  | .error e => .error e
  | .ok _ =>
    if !((PyFloat.finite 0).leB value && value.leB (.finite 1)) then
      .error (name ++ " must be in [0, 1], got " ++ value.reprStr)
    else .ok ()

structure CollectorParams where
  area_m2 : PyFloat
  heat_removal_factor : PyFloat
  optical_efficiency : PyFloat
  loss_coefficient_w_m2k : PyFloat
deriving DecidableEq

structure TankParams where
  mass_kg : PyFloat
  cp_j_kgk : PyFloat
  ua_w_k : PyFloat
  initial_temperature_k : PyFloat
  room_temperature_k : PyFloat
deriving DecidableEq

structure PumpParams where
  mass_flow_kg_s : PyFloat
deriving DecidableEq

structure ControlParams where
  enabled : Bool
  delta_t_on_k : PyFloat
  delta_t_off_k : PyFloat
  min_irradiance_w_m2 : PyFloat
deriving DecidableEq

structure SimulationParams where
  t0_s : PyFloat
  dt_s : PyFloat
  duration_s : PyFloat
deriving DecidableEq

/-- Embeds CollectorParams construction plus __post_init__ from params.py. -/
def mkCollectorParams (area_m2 heat_removal_factor optical_efficiency
    loss_coefficient_w_m2k : PyFloat) : Except String CollectorParams :=
  match require_positive "collector.area_m2" area_m2 with
  | .error e => .error e
  | .ok _ =>
  match require_unit_interval "collector.heat_removal_factor" heat_removal_factor with
  | .error e => .error e
  | .ok _ =>
  match require_unit_interval "collector.optical_efficiency" optical_efficiency with
  | .error e => .error e
  | .ok _ =>
  match require_non_negative "collector.loss_coefficient_w_m2k" loss_coefficient_w_m2k with
  | .error e => .error e
  | .ok _ =>
    .ok ⟨area_m2, heat_removal_factor, optical_efficiency, loss_coefficient_w_m2k⟩

/-- Embeds TankParams construction plus __post_init__ from params.py. -/
def mkTankParams (mass_kg cp_j_kgk ua_w_k initial_temperature_k
    room_temperature_k : PyFloat) : Except String TankParams :=
  match require_positive "tank.mass_kg" mass_kg with
  | .error e => .error e
  | .ok _ =>
  match require_positive "tank.cp_j_kgk" cp_j_kgk with
  | .error e => .error e
  | .ok _ =>
  match require_non_negative "tank.ua_w_k" ua_w_k with
  | .error e => .error e
  | .ok _ =>
  match require_non_negative "tank.initial_temperature_k" initial_temperature_k with
  | .error e => .error e
  | .ok _ =>
  match require_non_negative "tank.room_temperature_k" room_temperature_k with
  | .error e => .error e
  | .ok _ =>
    .ok ⟨mass_kg, cp_j_kgk, ua_w_k, initial_temperature_k, room_temperature_k⟩

/-- Embeds PumpParams construction plus __post_init__ from params.py. -/
def mkPumpParams (mass_flow_kg_s : PyFloat) : Except String PumpParams :=
  match require_non_negative "pump.mass_flow_kg_s" mass_flow_kg_s with
  | .error e => .error e
  | .ok _ => .ok ⟨mass_flow_kg_s⟩

/-- Embeds ControlParams construction plus __post_init__ from params.py. -/
def mkControlParams (enabled : Bool) (delta_t_on_k delta_t_off_k
    min_irradiance_w_m2 : PyFloat) : Except String ControlParams :=
  match require_non_negative "control.delta_t_on_k" delta_t_on_k with
  | .error e => .error e
  | .ok _ =>
  match require_non_negative "control.delta_t_off_k" delta_t_off_k with
  | .error e => .error e
  | .ok _ =>
  if PyFloat.ltB delta_t_on_k delta_t_off_k then
    .error "control.delta_t_off_k must be <= control.delta_t_on_k"
  else
  match require_non_negative "control.min_irradiance_w_m2" min_irradiance_w_m2 with
  | .error e => .error e
  | .ok _ =>
    .ok ⟨enabled, delta_t_on_k, delta_t_off_k, min_irradiance_w_m2⟩

/-- Embeds SimulationParams construction plus __post_init__ from params.py. -/
def mkSimulationParams (t0_s dt_s duration_s : PyFloat) : Except String SimulationParams :=
  match require_finite "simulation.t0_s" t0_s with
  | .error e => .error e
  | .ok _ =>
  match require_positive "simulation.dt_s" dt_s with
  | .error e => .error e
  | .ok _ =>
  match require_non_negative "simulation.duration_s" duration_s with
  | .error e => .error e
  | .ok _ =>
    .ok ⟨t0_s, dt_s, duration_s⟩

end Params

/-! ## Concrete fixtures -/

/-- A constant weather sampler used for concrete runs. -/
def wConst : Weather := ⟨fun _ => 0, fun _ => 300⟩

/-- The configuration of the failing divisibility test: dt = 0.3 s,
duration = 1.0 s, t0 = 0 (physics parameters kept trivial). -/
def cfgTrunc : SimulationConfig :=
  ⟨⟨1, 1, 1, 0⟩, ⟨1, 1, 0, 300, 300⟩, ⟨1⟩, ⟨true, 2, 1, 25⟩, ⟨0, 3/10, 1⟩⟩

/-- A small valid configuration whose duration is an exact multiple of dt. -/
def cfgExact : SimulationConfig :=
  ⟨⟨1, 1, 1, 0⟩, ⟨1, 1, 0, 300, 300⟩, ⟨1⟩, ⟨true, 2, 1, 25⟩, ⟨0, 1, 2⟩⟩

/-- The two-point series of the extrapolation tests: times 0 and 10,
values 1 and 3. -/
def tsTest : TimeSeries := ⟨[0, 10], [1, 3]⟩

/-! ## Shared helper lemmas -/

lemma getLast?_cons_of_getLast? {α : Type} {l : List α} {x : α} (a : α)
    (h : l.getLast? = some x) : (a :: l).getLast? = some x := by
  cases l with
  | nil => simp at h
  | cons b bs => rw [List.getLast?_cons_cons]; exact h

/-- Structural facts about one run of the loop body: every produced sequence
has remaining + 1 entries, the first timestamp is the entry time and the
last one is entry time plus remaining steps of dt. -/
lemma simLoop_shape (c : SimulationConfig) (w : Weather) :
    ∀ (n : ℕ) (t y : ℚ) (p : Bool),
      (simLoop c w n t y p).times_s.length = n + 1 ∧
      (simLoop c w n t y p).tank_temperature_k.length = n + 1 ∧
      (simLoop c w n t y p).ambient_temperature_k.length = n + 1 ∧
      (simLoop c w n t y p).irradiance_w_m2.length = n + 1 ∧
      (simLoop c w n t y p).pump_on.length = n + 1 ∧
      (simLoop c w n t y p).times_s.head? = some t ∧
      (simLoop c w n t y p).times_s.getLast? = some (t + n * c.sim.dt_s) := by
  intro n
  induction n with
  | zero =>
    intro t y p
    simp [simLoop]
  | succ n ih =>
    intro t y p
    simp only [simLoop]
    refine ⟨?_, ?_, ?_, ?_, ?_, ?_, ?_⟩
    · rw [List.length_cons, (ih _ _ _).1]
    · rw [List.length_cons, (ih _ _ _).2.1]
    · rw [List.length_cons, (ih _ _ _).2.2.1]
    · rw [List.length_cons, (ih _ _ _).2.2.2.1]
    · rw [List.length_cons, (ih _ _ _).2.2.2.2.1]
    · rfl
    · refine getLast?_cons_of_getLast? t ?_
      rw [(ih _ _ _).2.2.2.2.2.2]
      congr 1
      push_cast
      ring

lemma tsTest_valid : tsTest.valid := by
  refine ⟨by simp [tsTest], by simp [tsTest], by simp [tsTest]⟩

namespace Params

lemma require_finite_ok {name : String} {v : PyFloat}
    (h : require_finite name v = .ok ()) : v.isFinite = true := by
  cases hf : v.isFinite with
  | true => rfl
  | false => simp [require_finite, hf] at h

lemma require_finite_nonfinite {name : String} {v : PyFloat}
    (h : v.isFinite = false) :
    require_finite name v = .error (name ++ " must be finite, got " ++ v.reprStr) := by
  simp [require_finite, h]

lemma require_positive_ok_finite {name : String} {v : PyFloat}
    (h : require_positive name v = .ok ()) : v.isFinite = true := by
  cases hf : require_finite name v with
  | error e => simp [require_positive, hf] at h
  | ok u => cases u; exact require_finite_ok hf

lemma require_non_negative_ok_finite {name : String} {v : PyFloat}
    (h : require_non_negative name v = .ok ()) : v.isFinite = true := by
  cases hf : require_finite name v with
  | error e => simp [require_non_negative, hf] at h
  | ok u => cases u; exact require_finite_ok hf

lemma require_unit_interval_ok_finite {name : String} {v : PyFloat}
    (h : require_unit_interval name v = .ok ()) : v.isFinite = true := by
  cases hf : require_finite name v with
  | error e => simp [require_unit_interval, hf] at h
  | ok u => cases u; exact require_finite_ok hf

lemma require_positive_nonfinite {name : String} {v : PyFloat}
    (h : v.isFinite = false) :
    require_positive name v = .error (name ++ " must be finite, got " ++ v.reprStr) := by
  simp [require_positive, require_finite_nonfinite h]

lemma require_non_negative_nonfinite {name : String} {v : PyFloat}
    (h : v.isFinite = false) :
    require_non_negative name v = .error (name ++ " must be finite, got " ++ v.reprStr) := by
  simp [require_non_negative, require_finite_nonfinite h]

lemma require_unit_interval_nonfinite {name : String} {v : PyFloat}
    (h : v.isFinite = false) :
    require_unit_interval name v = .error (name ++ " must be finite, got " ++ v.reprStr) := by
  simp [require_unit_interval, require_finite_nonfinite h]

end Params

/-! ## Claim theorems -/

/-- Claim C3: update_pump_state implements exactly the documented hysteresis
rule: disabled control forces ON; irradiance below the minimum forces OFF;
otherwise, with the nominal collector outlet computed at the design mass flow
from the tank temperature at step start, an ON pump stays ON iff the nominal
outlet exceeds tank temperature plus delta_t_off, and an OFF pump switches ON
iff it exceeds tank temperature plus delta_t_on. -/
theorem update_pump_state_follows_hysteresis (p : Bool) (t_tank t_amb g : ℚ)
    (col : CollectorParams) (pump : PumpParams) (tank : TankParams)
    (ctl : ControlParams) :
    (ctl.enabled = false → update_pump_state p t_tank t_amb g col pump tank ctl = true) ∧
    (ctl.enabled = true → g < ctl.min_irradiance_w_m2 →
      update_pump_state p t_tank t_amb g col pump tank ctl = false) ∧
    (ctl.enabled = true → ¬ g < ctl.min_irradiance_w_m2 → p = true →
      (update_pump_state p t_tank t_amb g col pump tank ctl = true ↔
        collector_outlet_k t_tank (collector_useful_heat_w t_tank t_amb g col)
          pump.mass_flow_kg_s tank.cp_j_kgk > t_tank + ctl.delta_t_off_k)) ∧
    (ctl.enabled = true → ¬ g < ctl.min_irradiance_w_m2 → p = false →
      (update_pump_state p t_tank t_amb g col pump tank ctl = true ↔
        collector_outlet_k t_tank (collector_useful_heat_w t_tank t_amb g col)
          pump.mass_flow_kg_s tank.cp_j_kgk > t_tank + ctl.delta_t_on_k)) := by
  refine ⟨?_, ?_, ?_, ?_⟩
  · intro h₁
    simp [update_pump_state, h₁]
  · intro h₁ h₂
    simp [update_pump_state, h₁, h₂]
  · intro h₁ h₂ h₃
    simp [update_pump_state, h₁, h₂, h₃]
  · intro h₁ h₂ h₃
    simp [update_pump_state, h₁, h₂, h₃]

/-- Witness for C3: with control disabled the pump is forced on. -/
theorem update_pump_state_follows_hysteresis_witness :
    update_pump_state false 300 300 0 ⟨1, 1, 1, 0⟩ ⟨1⟩ ⟨1, 1, 0, 300, 300⟩
      ⟨false, 2, 1, 25⟩ = true :=
  (update_pump_state_follows_hysteresis false 300 300 0 ⟨1, 1, 1, 0⟩ ⟨1⟩
    ⟨1, 1, 0, 300, 300⟩ ⟨false, 2, 1, 25⟩).1 rfl

/-- Claim C8: for constant right-hand sides both steppers reproduce the
analytic linear solution exactly: they return y + dt * c. -/
theorem steppers_exact_for_constant_rhs (t y dt c : ℚ) :
    rk4_step t y dt (fun _ _ => c) = y + dt * c ∧
    euler_step t y dt (fun _ _ => c) = y + dt * c := by
  constructor
  · simp only [rk4_step]
    ring
  · simp only [euler_step]

/-- Claim C9: collector_outlet_k is total: with m_dot less than or equal to
zero it returns the inlet unchanged, and with positive m_dot it returns
t_in + Q_u / (m_dot * c_p). -/
theorem collector_outlet_total (t_in q_u m_dot cp : ℚ) (_hcp : 0 < cp) :
    (m_dot ≤ 0 → collector_outlet_k t_in q_u m_dot cp = t_in) ∧
    (0 < m_dot → collector_outlet_k t_in q_u m_dot cp = t_in + q_u / (m_dot * cp)) := by
  constructor
  · intro h
    simp [collector_outlet_k, h]
  · intro h
    simp [collector_outlet_k, not_le.mpr h]

/-- Witness for C9: both branches evaluated at concrete inputs. -/
theorem collector_outlet_total_witness :
    collector_outlet_k 1 2 0 4 = 1 ∧ collector_outlet_k 1 2 3 4 = 1 + 2 / (3 * 4) :=
  ⟨(collector_outlet_total 1 2 0 4 (by norm_num)).1 le_rfl,
   (collector_outlet_total 1 2 3 4 (by norm_num)).2 (by norm_num)⟩

/-- Claim C2, counterexample: on the valid series with times [0, 10] and
values [1, 3], querying exactly at the left boundary t = 0 does not return
the stored endpoint value 1: under mode zero it returns 0 and under mode
error it raises, refuting the claim that exact boundary ties are in-range. -/
theorem value_at_boundary_tie_counterexample :
    tsTest.valid ∧
    tsTest.value_at 0 .zero = .ok 0 ∧
    tsTest.values.headD 0 = 1 ∧
    ((Except.ok 0 : Except String ℚ) ≠ .ok 1) ∧
    tsTest.value_at 0 .error =
      .error ("t_s=" ++ toString (0 : ℚ) ++ " is before start of series") := by
  refine ⟨tsTest_valid, ?_, by simp [tsTest], by simp, ?_⟩
  · simp [TimeSeries.value_at, tsTest]
  · simp [TimeSeries.value_at, tsTest]

/-- Claim C2 as amended: for every valid TimeSeries, a query at or before the
first grid time follows the extrapolation mode (clamp returns the stored
first value, zero returns 0, error raises naming the start), and a query at
or after the last grid time follows the mode symmetrically; so exact
boundary ties are handled as out-of-range, which coincides with the stored
endpoint value only under clamp. -/
theorem value_at_boundary_follows_extrapolation (ts : TimeSeries) (t : ℚ)
    (_hv : ts.valid) :
    (t ≤ ts.times_s.headD 0 →
      ts.value_at t .clamp = .ok (ts.values.headD 0) ∧
      ts.value_at t .zero = .ok 0 ∧
      ts.value_at t .error =
        .error ("t_s=" ++ toString t ++ " is before start of series")) ∧
    (¬ t ≤ ts.times_s.headD 0 → ts.times_s.getLastD 0 ≤ t →
      ts.value_at t .clamp = .ok (ts.values.getLastD 0) ∧
      ts.value_at t .zero = .ok 0 ∧
      ts.value_at t .error =
        .error ("t_s=" ++ toString t ++ " is after end of series")) := by
  constructor
  · intro h
    refine ⟨?_, ?_, ?_⟩ <;> (simp only [TimeSeries.value_at]; rw [if_pos h])
  · intro h₁ h₂
    refine ⟨?_, ?_, ?_⟩ <;> (simp only [TimeSeries.value_at]; rw [if_neg h₁, if_pos h₂])

/-- Witness for the amended C2: the boundary query t = 0 on the test series
under each of the three modes. -/
theorem value_at_boundary_follows_extrapolation_witness :
    tsTest.value_at 0 .clamp = .ok (tsTest.values.headD 0) ∧
    tsTest.value_at 0 .zero = .ok 0 ∧
    tsTest.value_at 0 .error =
      .error ("t_s=" ++ toString (0 : ℚ) ++ " is before start of series") :=
  (value_at_boundary_follows_extrapolation tsTest 0 tsTest_valid).1
    (by simp [tsTest])

/-- Claim C4: whenever the duration is an exact multiple of dt, the run
returns five parallel sequences of length duration/dt + 1, with first
timestamp t0 and last timestamp t0 + duration. -/
theorem run_simulation_output_shape (c : SimulationConfig) (w : Weather) (n : ℕ)
    (hdt : 0 < c.sim.dt_s) (hdur : c.sim.duration_s = n * c.sim.dt_s) :
    (run_simulation c w).times_s.length = n + 1 ∧
    (run_simulation c w).tank_temperature_k.length = n + 1 ∧
    (run_simulation c w).ambient_temperature_k.length = n + 1 ∧
    (run_simulation c w).irradiance_w_m2.length = n + 1 ∧
    (run_simulation c w).pump_on.length = n + 1 ∧
    (run_simulation c w).times_s.head? = some c.sim.t0_s ∧
    (run_simulation c w).times_s.getLast? =
      some (c.sim.t0_s + c.sim.duration_s) := by
  have hfloor : (⌊c.sim.duration_s / c.sim.dt_s⌋).toNat = n := by
    rw [hdur, mul_div_assoc, div_self hdt.ne', mul_one, Int.floor_natCast,
      Int.toNat_natCast]
  have hrun : run_simulation c w =
      simLoop c w n c.sim.t0_s c.tank.initial_temperature_k false := by
    simp only [run_simulation, hfloor]
  obtain ⟨s1, s2, s3, s4, s5, s6, s7⟩ :=
    simLoop_shape c w n c.sim.t0_s c.tank.initial_temperature_k false
  rw [hrun, hdur]
  exact ⟨s1, s2, s3, s4, s5, s6, s7⟩

/-- Witness for C4: a run of 2 steps of 1 s starting at t0 = 0. -/
theorem run_simulation_output_shape_witness :
    (run_simulation cfgExact wConst).times_s.length = 2 + 1 ∧
    (run_simulation cfgExact wConst).tank_temperature_k.length = 2 + 1 ∧
    (run_simulation cfgExact wConst).ambient_temperature_k.length = 2 + 1 ∧
    (run_simulation cfgExact wConst).irradiance_w_m2.length = 2 + 1 ∧
    (run_simulation cfgExact wConst).pump_on.length = 2 + 1 ∧
    (run_simulation cfgExact wConst).times_s.head? = some cfgExact.sim.t0_s ∧
    (run_simulation cfgExact wConst).times_s.getLast? =
      some (cfgExact.sim.t0_s + cfgExact.sim.duration_s) :=
  run_simulation_output_shape cfgExact wConst 2 (by norm_num [cfgExact])
    (by norm_num [cfgExact])

/-- Claim C7: run_simulation is deterministic: identical configurations and
identical weather samplers yield identical SimulationResult records. -/
theorem run_simulation_deterministic (c₁ c₂ : SimulationConfig)
    (w₁ w₂ : Weather) (hc : c₁ = c₂) (hw : w₁ = w₂) :
    run_simulation c₁ w₁ = run_simulation c₂ w₂ := by
  rw [hc, hw]

/-- Witness for C7: two runs of the same concrete configuration agree. -/
theorem run_simulation_deterministic_witness :
    run_simulation cfgExact wConst = run_simulation cfgExact wConst :=
  run_simulation_deterministic cfgExact cfgExact wConst wConst rfl rfl

/-- Claim C1, evaluation at the failing input of the repository test
test_run_simulation_requires_duration_multiple_of_dt: with dt = 0.3 s and
duration = 1.0 s (not an exact multiple), SimulationParams validation
accepts the configuration and run_simulation silently truncates: it
produces 4 samples ending at t = 0.9 s instead of failing, although the
requested horizon ends at 1.0 s. -/
theorem run_simulation_silently_truncates :
    Params.mkSimulationParams (.finite 0) (.finite (3/10)) (.finite 1) =
      .ok ⟨.finite 0, .finite (3/10), .finite 1⟩ ∧
    (run_simulation cfgTrunc wConst).times_s.length = 3 + 1 ∧
    (run_simulation cfgTrunc wConst).times_s.getLast? = some (9/10) ∧
    cfgTrunc.sim.t0_s + cfgTrunc.sim.duration_s = 1 ∧
    (9/10 : ℚ) ≠ 1 := by
  have hfloor : (⌊cfgTrunc.sim.duration_s / cfgTrunc.sim.dt_s⌋).toNat = 3 := by
    have h1 : ⌊cfgTrunc.sim.duration_s / cfgTrunc.sim.dt_s⌋ = 3 := by
      norm_num [cfgTrunc]
    rw [h1]
    rfl
  have hrun : run_simulation cfgTrunc wConst =
      simLoop cfgTrunc wConst 3 cfgTrunc.sim.t0_s
        cfgTrunc.tank.initial_temperature_k false := by
    simp only [run_simulation, hfloor]
  obtain ⟨s1, _, _, _, _, _, s7⟩ :=
    simLoop_shape cfgTrunc wConst 3 cfgTrunc.sim.t0_s
      cfgTrunc.tank.initial_temperature_k false
  refine ⟨?_, ?_, ?_, by norm_num [cfgTrunc], by norm_num⟩
  · simp only [Params.mkSimulationParams, Params.require_finite,
      Params.require_positive, Params.require_non_negative,
      Params.PyFloat.isFinite, Params.PyFloat.leB, Params.PyFloat.ltB]
    norm_num
  · rw [hrun]
    exact s1
  · rw [hrun, s7]
    norm_num [cfgTrunc]

/-- Claim C5, evaluation at the failing inputs of the repository test
test_irradiance_clear_day_is_zero_at_endpoints_and_peaks_midday: with
sunrise 10, sunset 20 and peak 100, the implemented curve
peak * (1 - cos(pi * x)) / 2 yields the full peak 100 at t = sunset and
only 50 at the window midpoint t = 15 (it is 0 at sunrise), contradicting
the documented half-sine pulse that is zero at both endpoints and peaks at
the midpoint. -/
theorem irradiance_clear_day_shape_at_test_points :
    irradiance_clear_day_w_m2 20 10 20 100 = 100 ∧
    irradiance_clear_day_w_m2 15 10 20 100 = 50 ∧
    irradiance_clear_day_w_m2 10 10 20 100 = 0 := by
  refine ⟨?_, ?_, ?_⟩
  · simp only [irradiance_clear_day_w_m2]
    rw [if_neg (by norm_num)]
    have hx : ((20 : ℝ) - 10) / (20 - 10) = 1 := by norm_num
    rw [hx, mul_one, Real.cos_pi]
    norm_num
  · simp only [irradiance_clear_day_w_m2]
    rw [if_neg (by norm_num)]
    have hx : ((15 : ℝ) - 10) / (20 - 10) = 1 / 2 := by norm_num
    rw [hx]
    have hp : Real.pi * (1 / 2) = Real.pi / 2 := by ring
    rw [hp, Real.cos_pi_div_two]
    norm_num
  · simp only [irradiance_clear_day_w_m2]
    rw [if_neg (by norm_num)]
    have hx : ((10 : ℝ) - 10) / (20 - 10) = 0 := by norm_num
    rw [hx, mul_zero, Real.cos_zero]
    norm_num

/-- Claim C6, evaluation at the inputs of the repository test
test_ambient_sinusoid_peaks_at_peak_s: ambient_sinusoid_k has no peak-phase
parameter; with mean 300, amplitude 5 and period 100 it equals the mean
(300) at t = 25, which the test configures as the peak time and expects
305, while the maximum mean + amplitude occurs at the hard-wired phase
t = 0. -/
theorem ambient_sinusoid_peak_fixed_at_zero :
    ambient_sinusoid_k 25 300 5 100 = 300 ∧
    ambient_sinusoid_k 0 300 5 100 = 305 := by
  constructor
  · simp only [ambient_sinusoid_k]
    have hp : (2 : ℝ) * Real.pi * 25 / 100 = Real.pi / 2 := by ring
    rw [hp, Real.cos_pi_div_two]
    norm_num
  · simp only [ambient_sinusoid_k]
    have hp : (2 : ℝ) * Real.pi * 0 / 100 = 0 := by ring
    rw [hp, Real.cos_zero]
    norm_num

namespace Params

/-- Claim C10: every parameter dataclass rejects non-finite numeric fields at
construction. Successfully constructed structs contain only finite numeric
values, and a NaN or infinite value passed for any validated numeric field
(with the checks that precede it passing, since the first failing check is
the one reported) makes construction fail with an error naming that field. -/
theorem params_reject_nonfinite :
    (∀ a b c d p, mkCollectorParams a b c d = .ok p →
      a.isFinite = true ∧ b.isFinite = true ∧ c.isFinite = true ∧
      d.isFinite = true) ∧
    (∀ a b c d e p, mkTankParams a b c d e = .ok p →
      a.isFinite = true ∧ b.isFinite = true ∧ c.isFinite = true ∧
      d.isFinite = true ∧ e.isFinite = true) ∧
    (∀ a p, mkPumpParams a = .ok p → a.isFinite = true) ∧
    (∀ en a b c p, mkControlParams en a b c = .ok p →
      a.isFinite = true ∧ b.isFinite = true ∧ c.isFinite = true) ∧
    (∀ a b c p, mkSimulationParams a b c = .ok p →
      a.isFinite = true ∧ b.isFinite = true ∧ c.isFinite = true) ∧
    (∀ a b c d, a.isFinite = false → mkCollectorParams a b c d =
      .error ("collector.area_m2 must be finite, got " ++ a.reprStr)) ∧
    (∀ a b c d, require_positive "collector.area_m2" a = .ok () →
      b.isFinite = false → mkCollectorParams a b c d =
      .error ("collector.heat_removal_factor must be finite, got " ++ b.reprStr)) ∧
    (∀ a b c d, require_positive "collector.area_m2" a = .ok () →
      require_unit_interval "collector.heat_removal_factor" b = .ok () →
      c.isFinite = false → mkCollectorParams a b c d =
      .error ("collector.optical_efficiency must be finite, got " ++ c.reprStr)) ∧
    (∀ a b c d, require_positive "collector.area_m2" a = .ok () →
      require_unit_interval "collector.heat_removal_factor" b = .ok () →
      require_unit_interval "collector.optical_efficiency" c = .ok () →
      d.isFinite = false → mkCollectorParams a b c d =
      .error ("collector.loss_coefficient_w_m2k must be finite, got " ++ d.reprStr)) ∧
    (∀ a b c d e, a.isFinite = false → mkTankParams a b c d e =
      .error ("tank.mass_kg must be finite, got " ++ a.reprStr)) ∧
    (∀ a b c d e, require_positive "tank.mass_kg" a = .ok () →
      b.isFinite = false → mkTankParams a b c d e =
      .error ("tank.cp_j_kgk must be finite, got " ++ b.reprStr)) ∧
    (∀ a b c d e, require_positive "tank.mass_kg" a = .ok () →
      require_positive "tank.cp_j_kgk" b = .ok () →
      c.isFinite = false → mkTankParams a b c d e =
      .error ("tank.ua_w_k must be finite, got " ++ c.reprStr)) ∧
    (∀ a b c d e, require_positive "tank.mass_kg" a = .ok () →
      require_positive "tank.cp_j_kgk" b = .ok () →
      require_non_negative "tank.ua_w_k" c = .ok () →
      d.isFinite = false → mkTankParams a b c d e =
      .error ("tank.initial_temperature_k must be finite, got " ++ d.reprStr)) ∧
    (∀ a b c d e, require_positive "tank.mass_kg" a = .ok () →
      require_positive "tank.cp_j_kgk" b = .ok () →
      require_non_negative "tank.ua_w_k" c = .ok () →
      require_non_negative "tank.initial_temperature_k" d = .ok () →
      e.isFinite = false → mkTankParams a b c d e =
      .error ("tank.room_temperature_k must be finite, got " ++ e.reprStr)) ∧
    (∀ a, a.isFinite = false → mkPumpParams a =
      .error ("pump.mass_flow_kg_s must be finite, got " ++ a.reprStr)) ∧
    (∀ en a b c, a.isFinite = false → mkControlParams en a b c =
      .error ("control.delta_t_on_k must be finite, got " ++ a.reprStr)) ∧
    (∀ en a b c, require_non_negative "control.delta_t_on_k" a = .ok () →
      b.isFinite = false → mkControlParams en a b c =
      .error ("control.delta_t_off_k must be finite, got " ++ b.reprStr)) ∧
    (∀ en a b c, require_non_negative "control.delta_t_on_k" a = .ok () →
      require_non_negative "control.delta_t_off_k" b = .ok () →
      PyFloat.ltB a b = false →
      c.isFinite = false → mkControlParams en a b c =
      .error ("control.min_irradiance_w_m2 must be finite, got " ++ c.reprStr)) ∧
    (∀ a b c, a.isFinite = false → mkSimulationParams a b c =
      .error ("simulation.t0_s must be finite, got " ++ a.reprStr)) ∧
    (∀ a b c, require_finite "simulation.t0_s" a = .ok () →
      b.isFinite = false → mkSimulationParams a b c =
      .error ("simulation.dt_s must be finite, got " ++ b.reprStr)) ∧
    (∀ a b c, require_finite "simulation.t0_s" a = .ok () →
      require_positive "simulation.dt_s" b = .ok () →
      c.isFinite = false → mkSimulationParams a b c =
      .error ("simulation.duration_s must be finite, got " ++ c.reprStr)) := by
  refine ⟨?_, ?_, ?_, ?_, ?_, ?_, ?_, ?_, ?_, ?_, ?_, ?_, ?_, ?_, ?_, ?_, ?_,
    ?_, ?_, ?_, ?_⟩
  · intro a b c d p h
    cases h1 : require_positive "collector.area_m2" a with
    | error e => simp [mkCollectorParams, h1] at h
    | ok u =>
    cases h2 : require_unit_interval "collector.heat_removal_factor" b with
    | error e => simp [mkCollectorParams, h1, h2] at h
    | ok u2 =>
    cases h3 : require_unit_interval "collector.optical_efficiency" c with
    | error e => simp [mkCollectorParams, h1, h2, h3] at h
    | ok u3 =>
    cases h4 : require_non_negative "collector.loss_coefficient_w_m2k" d with
    | error e => simp [mkCollectorParams, h1, h2, h3, h4] at h
    | ok u4 =>
      cases u; cases u2; cases u3; cases u4
      exact ⟨require_positive_ok_finite h1, require_unit_interval_ok_finite h2,
        require_unit_interval_ok_finite h3, require_non_negative_ok_finite h4⟩
  · intro a b c d e p h
    cases h1 : require_positive "tank.mass_kg" a with
    | error e => simp [mkTankParams, h1] at h
    | ok u =>
    cases h2 : require_positive "tank.cp_j_kgk" b with
    | error e => simp [mkTankParams, h1, h2] at h
    | ok u2 =>
    cases h3 : require_non_negative "tank.ua_w_k" c with
    | error e => simp [mkTankParams, h1, h2, h3] at h
    | ok u3 =>
    cases h4 : require_non_negative "tank.initial_temperature_k" d with
    | error e => simp [mkTankParams, h1, h2, h3, h4] at h
    | ok u4 =>
    cases h5 : require_non_negative "tank.room_temperature_k" e with
    | error e => simp [mkTankParams, h1, h2, h3, h4, h5] at h
    | ok u5 =>
      cases u; cases u2; cases u3; cases u4; cases u5
      exact ⟨require_positive_ok_finite h1, require_positive_ok_finite h2,
        require_non_negative_ok_finite h3, require_non_negative_ok_finite h4,
        require_non_negative_ok_finite h5⟩
  · intro a p h
    cases h1 : require_non_negative "pump.mass_flow_kg_s" a with
    | error e => simp [mkPumpParams, h1] at h
    | ok u => cases u; exact require_non_negative_ok_finite h1
  · intro en a b c p h
    cases h1 : require_non_negative "control.delta_t_on_k" a with
    | error e => simp [mkControlParams, h1] at h
    | ok u =>
    cases h2 : require_non_negative "control.delta_t_off_k" b with
    | error e => simp [mkControlParams, h1, h2] at h
    | ok u2 =>
    cases h3 : PyFloat.ltB a b with
    | true => simp [mkControlParams, h1, h2, h3] at h
    | false =>
    cases h4 : require_non_negative "control.min_irradiance_w_m2" c with
    | error e => simp [mkControlParams, h1, h2, h3, h4] at h
    | ok u4 =>
      cases u; cases u2; cases u4
      exact ⟨require_non_negative_ok_finite h1, require_non_negative_ok_finite h2,
        require_non_negative_ok_finite h4⟩
  · intro a b c p h
    cases h1 : require_finite "simulation.t0_s" a with
    | error e => simp [mkSimulationParams, h1] at h
    | ok u =>
    cases h2 : require_positive "simulation.dt_s" b with
    | error e => simp [mkSimulationParams, h1, h2] at h
    | ok u2 =>
    cases h3 : require_non_negative "simulation.duration_s" c with
    | error e => simp [mkSimulationParams, h1, h2, h3] at h
    | ok u3 =>
      cases u; cases u2; cases u3
      exact ⟨require_finite_ok h1, require_positive_ok_finite h2,
        require_non_negative_ok_finite h3⟩
  · intro a b c d ha
    simp [mkCollectorParams, require_positive_nonfinite ha]
  · intro a b c d h1 hb
    simp [mkCollectorParams, h1, require_unit_interval_nonfinite hb]
  · intro a b c d h1 h2 hc
    simp [mkCollectorParams, h1, h2, require_unit_interval_nonfinite hc]
  · intro a b c d h1 h2 h3 hd
    simp [mkCollectorParams, h1, h2, h3, require_non_negative_nonfinite hd]
  · intro a b c d e ha
    simp [mkTankParams, require_positive_nonfinite ha]
  · intro a b c d e h1 hb
    simp [mkTankParams, h1, require_positive_nonfinite hb]
  · intro a b c d e h1 h2 hc
    simp [mkTankParams, h1, h2, require_non_negative_nonfinite hc]
  · intro a b c d e h1 h2 h3 hd
    simp [mkTankParams, h1, h2, h3, require_non_negative_nonfinite hd]
  · intro a b c d e h1 h2 h3 h4 he
    simp [mkTankParams, h1, h2, h3, h4, require_non_negative_nonfinite he]
  · intro a ha
    simp [mkPumpParams, require_non_negative_nonfinite ha]
  · intro en a b c ha
    simp [mkControlParams, require_non_negative_nonfinite ha]
  · intro en a b c h1 hb
    simp [mkControlParams, h1, require_non_negative_nonfinite hb]
  · intro en a b c h1 h2 h3 hc
    simp [mkControlParams, h1, h2, h3, require_non_negative_nonfinite hc]
  · intro a b c ha
    simp [mkSimulationParams, require_finite_nonfinite ha]
  · intro a b c h1 hb
    simp [mkSimulationParams, h1, require_positive_nonfinite hb]
  · intro a b c h1 h2 hc
    simp [mkSimulationParams, h1, h2, require_non_negative_nonfinite hc]

/-- Witness for C10: constructing CollectorParams with a NaN area fails with
an error naming the field. -/
theorem params_reject_nonfinite_witness :
    mkCollectorParams .nan (.finite 1) (.finite 1) (.finite 0) =
      .error ("collector.area_m2 must be finite, got " ++ PyFloat.reprStr .nan) :=
  params_reject_nonfinite.2.2.2.2.2.1 .nan (.finite 1) (.finite 1) (.finite 0) rfl

end Params

end PassiveLogic
